import Mathlib

/-!
A shallow embedding of the data-access layer of the regional polling
application (`DatabaseStorage` in the server storage module, together with
the relational schema in `shared/schema.ts` and the error-classification
logic of the route handlers).

Modelling conventions:
* The relational database is a record of lists of rows (`DB`).  Serial
  primary keys are `Nat`, user ids are `String` (varchar), timestamps are
  `Nat`.  `created_at` columns carry `defaultNow()` and are never written
  as NULL by this code, so they are modelled as total `Nat` fields; the
  `vote_count` column is written only as 0 or by increment (the reads
  apply `|| 0`), so it is modelled as a total `Nat` field.
* SQL `ORDER BY x DESC` and the JavaScript stable `Array.prototype.sort`
  are both modelled by the stable `List.insertionSort` with the
  corresponding total preorder.
* Inner joins are modelled by row filters requiring the joined row to
  exist (`joinCreatorRegion`), plus `find?`/`filterMap` for projections.
* Thrown `Error(message)` values are modelled as `Except.error message`;
  a mutation returns its `Except` result together with the database
  state after the call (the source throws before performing any write,
  so the error branches return the database unchanged).
* `ON DELETE CASCADE` references declared in `shared/schema.ts`
  (`vote_options.vote_id`, `user_votes.vote_id`, `user_votes.option_id`,
  `comments.vote_id`, `likes.vote_id`) are applied explicitly in the
  delete operations.
* `Math.round(voteCount / totalVotes * 100)` is evaluated over exact
  rationals: for a nonnegative argument it is floor(x + 1/2), i.e.
  `(voteCount * 100 * 2 + totalVotes) / (2 * totalVotes)` in `Nat`
  division.
-/

namespace Kok

/-- A row of the `users` table (only the primary key is relevant to the
join logic; the other profile columns are opaque payload). -/
structure User where
  id : String
deriving DecidableEq

/-- A row of the `regions` table. -/
structure Region where
  id : Nat
  name : String
  level : String
  parentId : Option Nat
deriving DecidableEq

/-- A row of the `votes` table (a poll). -/
structure Vote where
  id : Nat
  question : String
  creatorId : String
  regionId : Nat
  isActive : Bool
  endsAt : Option Nat
  createdAt : Nat
deriving DecidableEq

/-- A row of the `vote_options` table. -/
structure VoteOption where
  id : Nat
  voteId : Nat
  text : String
  voteCount : Nat
deriving DecidableEq

/-- A row of the `user_votes` table (a ballot). -/
structure UserVote where
  id : Nat
  userId : String
  voteId : Nat
  optionId : Nat
deriving DecidableEq

/-- A row of the `user_regions` table. -/
structure UserRegion where
  id : Nat
  userId : String
  regionId : Nat
  isSelected : Bool
deriving DecidableEq

/-- A row of the `comments` table. -/
structure Comment where
  id : Nat
  voteId : Nat
  userId : String
  content : String
  createdAt : Nat
deriving DecidableEq

/-- A row of the `likes` table. -/
structure Like where
  id : Nat
  userId : String
  voteId : Nat
deriving DecidableEq

/-- The relational state: one list of rows per table. -/
structure DB where
  users : List User
  regions : List Region
  votes : List Vote
  voteOptions : List VoteOption
  userVotes : List UserVote
  userRegions : List UserRegion
  comments : List Comment
  likes : List Like
deriving DecidableEq

/-- The aggregated per-option view: the option row plus its computed
percentage (field `percentage` of the spread in the aggregation code). -/
structure OptionWithPercentage where
  option : VoteOption
  percentage : Nat
deriving DecidableEq

/-- The `VoteWithDetails` read model of `shared/schema.ts` (the joined
creator and region records are row copies and are omitted; the join's
row-filtering effect is kept via `joinCreatorRegion`). -/
structure VoteWithDetails where
  vote : Vote
  options : List OptionWithPercentage
  totalVotes : Nat
  hasUserVoted : Bool
  userVotedOptionId : Option Nat
  commentsCount : Nat
  likesCount : Nat
  hasUserLiked : Bool
deriving DecidableEq

/-- The `sortBy` query parameter of the poll-list queries. -/
inductive SortBy where
  | participants
  | newest
  | oldest
deriving DecidableEq

/-- Next value of a serial primary-key column. -/
def nextId (ids : List Nat) : Nat := ids.foldl (fun m i => max m i) 0 + 1

/-- Boolean prefix test on character lists. -/
def charListPrefix : List Char → List Char → Bool
  | [], _ => true
  | _ :: _, [] => false
  | a :: as, b :: bs => a == b && charListPrefix as bs

/-- Boolean substring test on character lists. -/
def charListIncludes (hay needle : List Char) : Bool :=
  (List.range (hay.length + 1)).any (fun i => charListPrefix needle (hay.drop i))

/-- JavaScript `String.prototype.includes`. -/
def jsIncludes (hay needle : String) : Bool := charListIncludes hay.data needle.data

/-- Route handlers: `error.message.includes("already voted")` is mapped to
an HTTP 400 duplicate-ballot response (the AlreadyVoted kind). -/
def isAlreadyVotedError (msg : String) : Bool := jsIncludes msg "already voted"

/-- The vote update and delete route handlers:
`error.message.includes("권한이 없습니다")` is mapped to an HTTP 403 response
(the Forbidden kind).  The comments delete route performs no such check
and surfaces every error as a generic 500. -/
def isForbiddenError (msg : String) : Bool := jsIncludes msg "권한이 없습니다"

/-- Sort order `ORDER BY votes.created_at DESC` / the final province-level
merge comparator, on raw poll rows. -/
def vCreatedDesc (a b : Vote) : Prop := b.createdAt ≤ a.createdAt

instance : DecidableRel vCreatedDesc := fun a b => Nat.decLe b.createdAt a.createdAt

instance : IsTotal Vote vCreatedDesc := ⟨fun a b => Nat.le_total b.createdAt a.createdAt⟩

instance : IsTrans Vote vCreatedDesc := ⟨fun _ _ _ h1 h2 => Nat.le_trans h2 h1⟩

/-- Comparator `(a, b) => new Date(b.createdAt).getTime() - new Date(a.createdAt).getTime()`. -/
def vdCreatedDesc (a b : VoteWithDetails) : Prop := b.vote.createdAt ≤ a.vote.createdAt

instance : DecidableRel vdCreatedDesc := fun a b => Nat.decLe b.vote.createdAt a.vote.createdAt

instance : IsTotal VoteWithDetails vdCreatedDesc :=
  ⟨fun a b => Nat.le_total b.vote.createdAt a.vote.createdAt⟩

instance : IsTrans VoteWithDetails vdCreatedDesc := ⟨fun _ _ _ h1 h2 => Nat.le_trans h2 h1⟩

/-- Comparator `(a, b) => new Date(a.createdAt).getTime() - new Date(b.createdAt).getTime()`. -/
def vdCreatedAsc (a b : VoteWithDetails) : Prop := a.vote.createdAt ≤ b.vote.createdAt

instance : DecidableRel vdCreatedAsc := fun a b => Nat.decLe a.vote.createdAt b.vote.createdAt

instance : IsTotal VoteWithDetails vdCreatedAsc :=
  ⟨fun a b => Nat.le_total a.vote.createdAt b.vote.createdAt⟩

instance : IsTrans VoteWithDetails vdCreatedAsc := ⟨fun _ _ _ h1 h2 => Nat.le_trans h1 h2⟩

/-- Comparator `(a, b) => b.totalVotes - a.totalVotes`. -/
def vdTotalDesc (a b : VoteWithDetails) : Prop := b.totalVotes ≤ a.totalVotes

instance : DecidableRel vdTotalDesc := fun a b => Nat.decLe b.totalVotes a.totalVotes

instance : IsTotal VoteWithDetails vdTotalDesc := ⟨fun a b => Nat.le_total b.totalVotes a.totalVotes⟩

instance : IsTrans VoteWithDetails vdTotalDesc := ⟨fun _ _ _ h1 h2 => Nat.le_trans h2 h1⟩

/-- Sort order `ORDER BY comments.created_at DESC`. -/
def cCreatedDesc (a b : Comment) : Prop := b.createdAt ≤ a.createdAt

instance : DecidableRel cCreatedDesc := fun a b => Nat.decLe b.createdAt a.createdAt

/-- The inner joins of the poll queries on `users` (via `creatorId`) and
`regions` (via `regionId`): a poll row survives the join iff both joined
rows exist. -/
def joinCreatorRegion (db : DB) (v : Vote) : Bool :=
  db.users.any (fun uu => uu.id == v.creatorId) && db.regions.any (fun r => r.id == v.regionId)

/-- `getRegionById`: `SELECT * FROM regions WHERE id = ?`, first row. -/
def getRegionById (db : DB) (id : Nat) : Option Region :=
  db.regions.find? (fun r => r.id == id)

/-- `hasUserVoted`: first `user_votes` row for (userId, voteId), coerced
to a boolean. -/
def hasUserVoted (db : DB) (userId : String) (voteId : Nat) : Bool :=
  (db.userVotes.find? (fun uv => uv.userId == userId && uv.voteId == voteId)).isSome

/-- `getUserVoteOption`: the `optionId` of the first `user_votes` row for
(userId, voteId), if any. -/
def getUserVoteOption (db : DB) (userId : String) (voteId : Nat) : Option Nat :=
  (db.userVotes.find? (fun uv => uv.userId == userId && uv.voteId == voteId)).map
    (fun uv => uv.optionId)

/-- `hasUserLiked`: first `likes` row for (userId, voteId), coerced to a
boolean. -/
def hasUserLiked (db : DB) (userId : String) (voteId : Nat) : Bool :=
  (db.likes.find? (fun l => l.userId == userId && l.voteId == voteId)).isSome

/-- `getLikesCount`: `SELECT count(*) FROM likes WHERE vote_id = ?`. -/
def getLikesCount (db : DB) (voteId : Nat) : Nat :=
  (db.likes.filter (fun l => l.voteId == voteId)).length

/-- `getCommentsByVote`: comments of the poll inner-joined with `users`,
ordered by `created_at DESC` (only the comment rows are kept here; the
joined user row is payload). -/
def getCommentsByVote (db : DB) (voteId : Nat) : List Comment :=
  List.insertionSort cCreatedDesc
    (db.comments.filter (fun c => c.voteId == voteId && db.users.any (fun uu => uu.id == c.userId)))

/-- `Math.round(((option.voteCount || 0) / totalVotes) * 100)` when
`totalVotes > 0`, else `0`, over exact rationals (round half up). -/
def percentage (voteCount totalVotes : Nat) : Nat :=
  if 0 < totalVotes then (voteCount * 100 * 2 + totalVotes) / (2 * totalVotes) else 0

/-- The per-poll aggregation body of `getVotesByRegion`: options of the
poll, `totalVotes` by `reduce`, per-option percentage, per-user vote
state, and comment/like counters (plain `count()` queries, no join). -/
def regionVoteDetails (db : DB) (v : Vote) (userId : Option String) : VoteWithDetails :=
  let options := db.voteOptions.filter (fun o => o.voteId == v.id)
  let totalVotes := options.foldl (fun sum o => sum + o.voteCount) 0
  let optionsWithPercentage :=
    options.map (fun o => { option := o, percentage := percentage o.voteCount totalVotes })
  let userVoteOption := userId.bind (fun uid => getUserVoteOption db uid v.id)
  { vote := v
    options := optionsWithPercentage
    totalVotes := totalVotes
    hasUserVoted := userVoteOption.isSome
    userVotedOptionId := userVoteOption
    commentsCount := (db.comments.filter (fun c => c.voteId == v.id)).length
    likesCount := (db.likes.filter (fun l => l.voteId == v.id)).length
    hasUserLiked := match userId with
      | some uid => hasUserLiked db uid v.id
      | none => false }

/-- The aggregation body of `getVoteById` (it counts comments through
`getCommentsByVote`, i.e. through the user join, and likes through
`getLikesCount`). -/
def voteByIdDetails (db : DB) (v : Vote) (userId : Option String) : VoteWithDetails :=
  let options := db.voteOptions.filter (fun o => o.voteId == v.id)
  let totalVotes := options.foldl (fun sum o => sum + o.voteCount) 0
  let optionsWithPercentage :=
    options.map (fun o => { option := o, percentage := percentage o.voteCount totalVotes })
  let userVoteOption := userId.bind (fun uid => getUserVoteOption db uid v.id)
  { vote := v
    options := optionsWithPercentage
    totalVotes := totalVotes
    hasUserVoted := userVoteOption.isSome
    userVotedOptionId := userVoteOption
    commentsCount := (getCommentsByVote db v.id).length
    likesCount := getLikesCount db v.id
    hasUserLiked := match userId with
      | some uid => hasUserLiked db uid v.id
      | none => false }

/-- `getVoteById`: the poll row joined with creator and region, then
aggregated. -/
def getVoteById (db : DB) (id : Nat) (userId : Option String) : Option VoteWithDetails :=
  (db.votes.find? (fun v => v.id == id && joinCreatorRegion db v)).map
    (fun v => voteByIdDetails db v userId)

/-- The search filter of `getVotesByRegion`: applied only when the query
is truthy and nonblank after trimming; case-insensitive substring match
against the question or any option text. -/
def applySearch : Option String → List VoteWithDetails → List VoteWithDetails
  | none, result => result
  | some q, result =>
    if q.trim ≠ "" then
      let searchTerm := q.toLower
      result.filter (fun d =>
        jsIncludes d.vote.question.toLower searchTerm
          || d.options.any (fun ow => jsIncludes ow.option.text.toLower searchTerm))
    else result

/-- The `sortBy` switch of `getVotesByRegion` (a stable in-place sort; no
re-sort when the parameter is absent). -/
def applySort : Option SortBy → List VoteWithDetails → List VoteWithDetails
  | none, result => result
  | some SortBy.participants, result => List.insertionSort vdTotalDesc result
  | some SortBy.newest, result => List.insertionSort vdCreatedDesc result
  | some SortBy.oldest, result => List.insertionSort vdCreatedAsc result

/-- `getVotesByRegion`: polls of one region (joined with creator and
region, ordered by `created_at DESC`), aggregated, then search-filtered,
then sorted. -/
def getVotesByRegion (db : DB) (regionId : Nat) (userId : Option String)
    (searchQuery : Option String) (sortBy : Option SortBy) : List VoteWithDetails :=
  let votesData := List.insertionSort vCreatedDesc
    (db.votes.filter (fun v => v.regionId == regionId && joinCreatorRegion db v))
  let result := votesData.map (fun v => regionVoteDetails db v userId)
  applySort sortBy (applySearch searchQuery result)

/-- `getVotesByRegionHierarchy`: absent region yields `[]`; a country
region yields every poll (ordered by `created_at DESC`, each fetched via
`getVoteById`, dropping misses); a province region concatenates its own
and its children's `getVotesByRegion` results and re-sorts the merge by
`created_at DESC`; any other level delegates to `getVotesByRegion`. -/
def getVotesByRegionHierarchy (db : DB) (regionId : Nat) (userId : Option String)
    (searchQuery : Option String) (sortBy : Option SortBy) : List VoteWithDetails :=
  match getRegionById db regionId with
  | none => []
  | some selectedRegion =>
    if selectedRegion.level == "country" then
      (List.insertionSort vCreatedDesc db.votes).filterMap (fun v => getVoteById db v.id userId)
    else if selectedRegion.level == "province" then
      let childRegions := db.regions.filter (fun r => r.parentId == some regionId)
      let targetRegionIds := regionId :: childRegions.map (fun r => r.id)
      let result := targetRegionIds.flatMap
        (fun targetId => getVotesByRegion db targetId userId searchQuery sortBy)
      List.insertionSort vdCreatedDesc result
    else
      getVotesByRegion db regionId userId searchQuery sortBy

/-- `getUserSelectedRegion`: the user's `is_selected` rows inner-joined
with `regions`, first joined region row. -/
def getUserSelectedRegion (db : DB) (userId : String) : Option Region :=
  ((db.userRegions.filter (fun ur => ur.userId == userId && ur.isSelected)).filterMap
    (fun ur => db.regions.find? (fun r => r.id == ur.regionId))).head?

/-- `setUserSelectedRegion`: clear `is_selected` on all of the user's
rows, then insert (userId, regionId, isSelected := true) with
`onConflictDoNothing` against the unique (user_id, region_id) key. -/
def setUserSelectedRegion (db : DB) (userId : String) (regionId : Nat) : DB :=
  let db1 : DB := { db with userRegions := db.userRegions.map (fun ur =>
    if ur.userId == userId then { ur with isSelected := false } else ur) }
  if db1.userRegions.any (fun ur => ur.userId == userId && ur.regionId == regionId) then db1
  else
    { db1 with userRegions := db1.userRegions ++
      [{ id := nextId (db1.userRegions.map (fun ur => ur.id)),
         userId := userId, regionId := regionId, isSelected := true }] }

/-- `castVote`: duplicate-ballot check, then insert the `user_votes` row
and increment the target option's counter (no existence or membership
check on `voteId`/`optionId`). -/
def castVote (db : DB) (userId : String) (voteId : Nat) (optionId : Nat) :
    Except String Unit × DB :=
  if hasUserVoted db userId voteId then
    (Except.error "User has already voted on this poll", db)
  else
    let db1 : DB := { db with userVotes := db.userVotes ++
      [{ id := nextId (db.userVotes.map (fun uv => uv.id)),
         userId := userId, voteId := voteId, optionId := optionId }] }
    let db2 : DB := { db1 with voteOptions := db1.voteOptions.map (fun o =>
      if o.id == optionId then { o with voteCount := o.voteCount + 1 } else o) }
    (Except.ok (), db2)

/-- The fresh option rows inserted by `updateVote` (serial ids, counter
at its column default 0). -/
def insertOptionsFrom (voteId : Nat) : Nat → List String → List VoteOption
  | _, [] => []
  | base, t :: ts =>
    { id := base, voteId := voteId, text := t, voteCount := 0 } ::
      insertOptionsFrom voteId (base + 1) ts

/-- `updateVote`: owner check (missing poll and foreign owner raise the
same permission error), then in one transaction: update the question,
delete the poll's options (cascading to `user_votes` rows referencing
them via `option_id`), insert the new option texts. -/
def updateVote (db : DB) (voteId : Nat) (userId : String) (question : String)
    (options : List String) : Except String Vote × DB :=
  match db.votes.find? (fun v => v.id == voteId) with
  | none => (Except.error "투표를 수정할 권한이 없습니다", db)
  | some vote =>
    if vote.creatorId ≠ userId then (Except.error "투표를 수정할 권한이 없습니다", db)
    else
      let updatedVote : Vote := { vote with question := question }
      let deletedOptionIds := (db.voteOptions.filter (fun o => o.voteId == voteId)).map
        (fun o => o.id)
      let db1 : DB := { db with
        votes := db.votes.map (fun v =>
          if v.id == voteId then { v with question := question } else v)
        voteOptions :=
          db.voteOptions.filter (fun o => !(o.voteId == voteId)) ++
            insertOptionsFrom voteId (nextId (db.voteOptions.map (fun o => o.id))) options
        userVotes := db.userVotes.filter (fun uv => !(deletedOptionIds.contains uv.optionId)) }
      (Except.ok updatedVote, db1)

/-- `deleteVote`: owner check (missing poll and foreign owner raise the
same permission error), then delete the poll row; the schema's
`ON DELETE CASCADE` references remove its options, user-votes, comments
and likes, and user-votes referencing a deleted option via `option_id`. -/
def deleteVote (db : DB) (voteId : Nat) (userId : String) : Except String Unit × DB :=
  match db.votes.find? (fun v => v.id == voteId) with
  | none => (Except.error "투표를 삭제할 권한이 없습니다", db)
  | some vote =>
    if vote.creatorId ≠ userId then (Except.error "투표를 삭제할 권한이 없습니다", db)
    else
      let deletedOptionIds := (db.voteOptions.filter (fun o => o.voteId == voteId)).map
        (fun o => o.id)
      (Except.ok (), { db with
        votes := db.votes.filter (fun v => !(v.id == voteId))
        voteOptions := db.voteOptions.filter (fun o => !(o.voteId == voteId))
        userVotes := db.userVotes.filter (fun uv =>
          !(uv.voteId == voteId) && !(deletedOptionIds.contains uv.optionId))
        comments := db.comments.filter (fun c => !(c.voteId == voteId))
        likes := db.likes.filter (fun l => !(l.voteId == voteId)) })

/-- `deleteComment`: author check (missing comment and foreign author
raise the same permission error), then delete the row. -/
def deleteComment (db : DB) (commentId : Nat) (userId : String) : Except String Unit × DB :=
  match db.comments.find? (fun c => c.id == commentId) with
  | none => (Except.error "댓글을 삭제할 권한이 없습니다", db)
  | some c =>
    if c.userId ≠ userId then (Except.error "댓글을 삭제할 권한이 없습니다", db)
    else (Except.ok (), { db with comments := db.comments.filter (fun c => !(c.id == commentId)) })

/-- `toggleLike`: select the (userId, voteId) like rows; when nonempty,
delete them all and report `false` (unliked), else insert one row and
report `true` (liked). -/
def toggleLike (db : DB) (userId : String) (voteId : Nat) : Bool × DB :=
  let existingLike := db.likes.filter (fun l => l.userId == userId && l.voteId == voteId)
  if existingLike.length > 0 then
    (false, { db with likes := db.likes.filter (fun l =>
      !(l.userId == userId && l.voteId == voteId)) })
  else
    (true, { db with likes := db.likes ++
      [{ id := nextId (db.likes.map (fun l => l.id)), userId := userId, voteId := voteId }] })

/-- The ordering requested by a caller of the poll-list queries, as the
spec describes it: `participants` is totalVotes descending, `newest` is
createdAt descending, `oldest` is createdAt ascending, and an absent key
means creation order descending. -/
def sortedAsRequested (sb : Option SortBy) (l : List VoteWithDetails) : Prop :=
  match sb with
  | some SortBy.participants => List.Sorted vdTotalDesc l
  | some SortBy.newest => List.Sorted vdCreatedDesc l
  | some SortBy.oldest => List.Sorted vdCreatedAsc l
  | none => List.Sorted vdCreatedDesc l

/-! Concrete database states used by the witnesses and counterexamples. -/

/-- Example user u1. -/
def exU1 : User := { id := "u1" }

/-- Example user u2. -/
def exU2 : User := { id := "u2" }

/-- Example country-level region. -/
def exRegKR : Region := { id := 1, name := "KR", level := "country", parentId := none }

/-- Example province under the country. -/
def exRegP1 : Region := { id := 2, name := "P1", level := "province", parentId := some 1 }

/-- Example city under province P1. -/
def exRegC1 : Region := { id := 3, name := "C1", level := "city", parentId := some 2 }

/-- Example unrelated province under the country. -/
def exRegP2 : Region := { id := 4, name := "P2", level := "province", parentId := some 1 }

/-- Example city under the unrelated province P2. -/
def exRegC2 : Region := { id := 5, name := "C2", level := "city", parentId := some 4 }

/-- Example poll owned by u1 in the country region. -/
def exVote1 : Vote :=
  { id := 1, question := "Q1", creatorId := "u1", regionId := 1, isActive := true,
    endsAt := none, createdAt := 10 }

/-- A database with one poll whose two options have 3 and 1 votes. -/
def exDb1 : DB :=
  { users := [exU1, exU2], regions := [exRegKR], votes := [exVote1],
    voteOptions := [{ id := 1, voteId := 1, text := "A", voteCount := 3 },
                    { id := 2, voteId := 1, text := "B", voteCount := 1 }],
    userVotes := [], userRegions := [], comments := [], likes := [] }

/-- The aggregate view of the poll of `exDb1`. -/
def exView1 : VoteWithDetails := voteByIdDetails exDb1 exVote1 none

/-- Example poll in province P1. -/
def exV1 : Vote :=
  { id := 1, question := "qa", creatorId := "u1", regionId := 2, isActive := true,
    endsAt := none, createdAt := 30 }

/-- Example poll in city C1 (child of P1). -/
def exV2 : Vote :=
  { id := 2, question := "qb", creatorId := "u1", regionId := 3, isActive := true,
    endsAt := none, createdAt := 20 }

/-- Example poll in city C2 (child of the unrelated province P2). -/
def exV3 : Vote :=
  { id := 3, question := "qc", creatorId := "u1", regionId := 5, isActive := true,
    endsAt := none, createdAt := 10 }

/-- A database with a three-level region tree and one poll per leaf area. -/
def exDb2 : DB :=
  { users := [exU1], regions := [exRegKR, exRegP1, exRegC1, exRegP2, exRegC2],
    votes := [exV1, exV2, exV3], voteOptions := [], userVotes := [], userRegions := [],
    comments := [], likes := [] }

/-- A database where the newer poll (createdAt 2) has fewer total votes
(0) than the older poll (createdAt 1, 5 votes). -/
def exDb4 : DB :=
  { users := [exU1], regions := [exRegKR],
    votes := [{ id := 1, question := "q1", creatorId := "u1", regionId := 1, isActive := true,
                endsAt := none, createdAt := 1 },
              { id := 2, question := "q2", creatorId := "u1", regionId := 1, isActive := true,
                endsAt := none, createdAt := 2 }],
    voteOptions := [{ id := 1, voteId := 1, text := "A", voteCount := 5 },
                    { id := 2, voteId := 2, text := "B", voteCount := 0 }],
    userVotes := [], userRegions := [], comments := [], likes := [] }

/-- An option row of poll 1 used by the cascade witness. -/
def exOpt1 : VoteOption := { id := 1, voteId := 1, text := "A", voteCount := 2 }

/-- A database with two polls and dependent rows of every kind on poll 1. -/
def exDb8 : DB :=
  { users := [exU1, exU2], regions := [exRegKR],
    votes := [exVote1,
              { id := 2, question := "Q2", creatorId := "u1", regionId := 1, isActive := true,
                endsAt := none, createdAt := 11 }],
    voteOptions := [exOpt1, { id := 2, voteId := 2, text := "B", voteCount := 0 }],
    userVotes := [{ id := 1, userId := "u2", voteId := 1, optionId := 1 },
                  { id := 2, userId := "u2", voteId := 2, optionId := 2 }],
    userRegions := [],
    comments := [{ id := 1, voteId := 1, userId := "u2", content := "hi", createdAt := 5 }],
    likes := [{ id := 1, userId := "u2", voteId := 1 }] }

/-- The selection row of user u1 for region 1. -/
def exUR1 : UserRegion := { id := 1, userId := "u1", regionId := 1, isSelected := true }

/-- A database where user u1 already has a (u1, region 1) selection row. -/
def exDb10 : DB :=
  { users := [exU1], regions := [exRegKR], votes := [], voteOptions := [], userVotes := [],
    userRegions := [exUR1], comments := [], likes := [] }

/-! Helper lemmas. -/

/-- Folding the counter sum is the sum of the mapped counters. -/
theorem foldl_add_voteCount (l : List VoteOption) (s : Nat) :
    l.foldl (fun sum o => sum + o.voteCount) s = s + (l.map (fun o => o.voteCount)).sum := by
  induction l generalizing s with
  | nil => simp
  | cons x xs ih => simp [ih, Nat.add_assoc]

/-- Success equation of castVote: with no prior ballot, the call returns
ok and the database extended by the new row and the incremented option. -/
theorem castVote_success_eq (db : DB) (userId : String) (voteId optionId : Nat)
    (h : hasUserVoted db userId voteId = false) :
    castVote db userId voteId optionId =
      (Except.ok (),
        { db with
          userVotes := db.userVotes ++
            [{ id := nextId (db.userVotes.map (fun uv => uv.id)),
               userId := userId, voteId := voteId, optionId := optionId }]
          voteOptions := db.voteOptions.map (fun o =>
            if o.id == optionId then { o with voteCount := o.voteCount + 1 } else o) }) := by
  rw [castVote]
  simp [h]

/-- C3: after one successful castVote for a (user, poll), a second castVote
for the same pair with any optionId fails with the AlreadyVoted error and
returns the database unchanged (so every option's voteCount and the set of
UserVote rows are untouched by the failing call). -/
theorem castVote_second_alreadyVoted (db : DB) (userId : String) (voteId o1 o2 : Nat)
    (h : (castVote db userId voteId o1).1 = Except.ok ()) :
    castVote (castVote db userId voteId o1).2 userId voteId o2 =
      (Except.error "User has already voted on this poll", (castVote db userId voteId o1).2) := by
  have hv : hasUserVoted db userId voteId = false := by
    by_contra hcon
    rw [Bool.not_eq_false] at hcon
    rw [castVote] at h
    simp [hcon] at h
  have he := castVote_success_eq db userId voteId o1 hv
  have h2 : hasUserVoted (castVote db userId voteId o1).2 userId voteId = true := by
    rw [he]
    simp only [hasUserVoted, List.find?_append]
    cases hfl : db.userVotes.find? (fun uv => uv.userId == userId && uv.voteId == voteId) with
    | some w => rfl
    | none => simp
  generalize (castVote db userId voteId o1).2 = db2 at h2 ⊢
  rw [castVote, if_pos h2]

/-- C3 witness: in `exDb1`, user u1 casts a ballot on poll 1 and a second
attempt with a different option fails with the AlreadyVoted error. -/
theorem castVote_second_alreadyVoted_witness :
    (castVote exDb1 "u1" 1 1).1 = Except.ok () ∧
    castVote (castVote exDb1 "u1" 1 1).2 "u1" 1 2 =
      (Except.error "User has already voted on this poll", (castVote exDb1 "u1" 1 1).2) :=
  ⟨rfl, castVote_second_alreadyVoted exDb1 "u1" 1 1 2 rfl⟩

/-- C7: updateVote requested by a user who is not the poll's creator fails
with the permission error (classified Forbidden by the routes) and returns
the database unchanged, so the question and the whole option set keep
their values. -/
theorem updateVote_nonCreator_forbidden (db : DB) (voteId : Nat) (userId question : String)
    (options : List String) (v : Vote)
    (hfind : db.votes.find? (fun w => w.id == voteId) = some v)
    (hne : v.creatorId ≠ userId) :
    updateVote db voteId userId question options =
      (Except.error "투표를 수정할 권한이 없습니다", db) ∧
    isForbiddenError "투표를 수정할 권한이 없습니다" = true := by
  refine ⟨?_, by decide⟩
  rw [updateVote, hfind]
  simp [hne]

/-- C7 witness: u2 cannot update u1's poll in `exDb1`. -/
theorem updateVote_nonCreator_forbidden_witness :
    updateVote exDb1 1 "u2" "newQ" ["a", "b"] =
      (Except.error "투표를 수정할 권한이 없습니다", exDb1) ∧
    isForbiddenError "투표를 수정할 권한이 없습니다" = true :=
  updateVote_nonCreator_forbidden exDb1 1 "u2" "newQ" ["a", "b"] exVote1 rfl (by decide)

/-- Success equation of deleteVote: with the poll found and the caller its
creator, the call returns ok and the cascaded filters of every table. -/
theorem deleteVote_ok_eq (db : DB) (voteId : Nat) (userId : String) (v : Vote)
    (hfind : db.votes.find? (fun w => w.id == voteId) = some v)
    (hcr : v.creatorId = userId) :
    deleteVote db voteId userId =
      (Except.ok (),
        { db with
          votes := db.votes.filter (fun w => !(w.id == voteId))
          voteOptions := db.voteOptions.filter (fun o => !(o.voteId == voteId))
          userVotes := db.userVotes.filter (fun uv =>
            !(uv.voteId == voteId) &&
              !(((db.voteOptions.filter (fun o => o.voteId == voteId)).map
                  (fun o => o.id)).contains uv.optionId))
          comments := db.comments.filter (fun c => !(c.voteId == voteId))
          likes := db.likes.filter (fun l => !(l.voteId == voteId)) }) := by
  rw [deleteVote, hfind]
  simp [hcr]

/-- C8: after a successful deleteVote, no option, user-vote, comment or
like row referencing the deleted poll remains in the database. -/
theorem deleteVote_cascade (db : DB) (voteId : Nat) (userId : String) (db' : DB)
    (h : deleteVote db voteId userId = (Except.ok (), db')) :
    (∀ o ∈ db'.voteOptions, o.voteId ≠ voteId) ∧
    (∀ uv ∈ db'.userVotes, uv.voteId ≠ voteId) ∧
    (∀ c ∈ db'.comments, c.voteId ≠ voteId) ∧
    (∀ l ∈ db'.likes, l.voteId ≠ voteId) := by
  obtain ⟨v, hfind⟩ : ∃ v, db.votes.find? (fun w => w.id == voteId) = some v := by
    cases hf : db.votes.find? (fun w => w.id == voteId) with
    | some v => exact ⟨v, rfl⟩
    | none => rw [deleteVote, hf] at h; simp at h
  have hcr : v.creatorId = userId := by
    by_contra hne
    rw [deleteVote, hfind] at h
    simp [hne] at h
  rw [deleteVote_ok_eq db voteId userId v hfind hcr] at h
  obtain ⟨-, h2⟩ := (Prod.mk.injEq _ _ _ _).mp h
  subst h2
  refine ⟨?_, ?_, ?_, ?_⟩ <;> intro x hx <;> simp [List.mem_filter] at hx
  · exact hx.2
  · exact hx.2.1
  · exact hx.2
  · exact hx.2

/-- C8 witness: deleting poll 1 of `exDb8` removes its option, user-vote,
comment and like rows (the rows of poll 2 survive), and in particular the
option row `exOpt1` is gone. -/
theorem deleteVote_cascade_witness :
    (deleteVote exDb8 1 "u1").1 = Except.ok () ∧
    (deleteVote exDb8 1 "u1").2.comments = [] ∧
    (deleteVote exDb8 1 "u1").2.likes = [] ∧
    (deleteVote exDb8 1 "u1").2.userVotes.map (fun uv => uv.voteId) = [2] ∧
    exOpt1 ∉ (deleteVote exDb8 1 "u1").2.voteOptions := by
  refine ⟨rfl, rfl, rfl, rfl, ?_⟩
  intro hmem
  have h := deleteVote_cascade exDb8 1 "u1" (deleteVote exDb8 1 "u1").2 rfl
  exact h.1 exOpt1 hmem rfl

/-- C9: castVote checks only the duplicate-ballot condition: whenever the
user has no prior ballot on the poll, the call succeeds for any voteId and
any optionId (even one belonging to a different poll), appending the
UserVote row and incrementing the option with that id by exactly 1. -/
theorem castVote_no_existence_check (db : DB) (userId : String) (voteId optionId : Nat)
    (h : hasUserVoted db userId voteId = false) :
    castVote db userId voteId optionId =
      (Except.ok (),
        { db with
          userVotes := db.userVotes ++
            [{ id := nextId (db.userVotes.map (fun uv => uv.id)),
               userId := userId, voteId := voteId, optionId := optionId }]
          voteOptions := db.voteOptions.map (fun o =>
            if o.id == optionId then { o with voteCount := o.voteCount + 1 } else o) }) :=
  castVote_success_eq db userId voteId optionId h

/-- C9 witness: in `exDb8`, option 2 belongs to poll 2, yet casting a
ballot on poll 1 with optionId 2 succeeds and increments option 2's
counter from 0 to 1. -/
theorem castVote_no_existence_check_witness :
    hasUserVoted exDb8 "u1" 1 = false ∧
    castVote exDb8 "u1" 1 2 =
      (Except.ok (),
        { exDb8 with
          userVotes := exDb8.userVotes ++
            [{ id := nextId (exDb8.userVotes.map (fun uv => uv.id)),
               userId := "u1", voteId := 1, optionId := 2 }]
          voteOptions := exDb8.voteOptions.map (fun o =>
            if o.id == 2 then { o with voteCount := o.voteCount + 1 } else o) }) ∧
    (castVote exDb8 "u1" 1 2).2.voteOptions.map (fun o => (o.voteId, o.voteCount)) =
      [(1, 2), (2, 1)] :=
  ⟨rfl, castVote_no_existence_check exDb8 "u1" 1 2 rfl, by decide⟩

/-- C5 counterexample: the code does not raise NotFound for absent
resources: `getVotesByRegionHierarchy` on the nonexistent region 99
returns an empty list instead of failing, and updateVote, deleteVote and
deleteComment on nonexistent ids fail with the same ownership-permission
messages used for non-owners.  The vote routes classify the vote messages
as Forbidden (403); the comments delete route surfaces its error as a
generic 500 — in no case a NotFound. -/
theorem absent_resource_counterexample :
    getRegionById exDb1 99 = none ∧
    getVotesByRegionHierarchy exDb1 99 none none none = [] ∧
    updateVote exDb1 77 "u1" "q" ["a", "b"] =
      (Except.error "투표를 수정할 권한이 없습니다", exDb1) ∧
    deleteVote exDb1 77 "u1" = (Except.error "투표를 삭제할 권한이 없습니다", exDb1) ∧
    deleteComment exDb1 77 "u1" = (Except.error "댓글을 삭제할 권한이 없습니다", exDb1) ∧
    isForbiddenError "투표를 수정할 권한이 없습니다" = true ∧
    isForbiddenError "투표를 삭제할 권한이 없습니다" = true :=
  ⟨rfl, rfl, rfl, rfl, rfl, by decide, by decide⟩

/-- C5 amended: region resolution with an absent region id returns an
empty list rather than failing.  updateVote and deleteVote applied to a
nonexistent poll fail with the same ownership error used for non-owners
(which the vote routes classify as Forbidden), and deleteComment applied
to a nonexistent comment fails with the same ownership error used for
non-authors (surfaced by the comments route as a generic failure); no
operation raises a distinct NotFound error. -/
theorem absent_resource_amended (db : DB) :
    (∀ rid u sq sb, getRegionById db rid = none →
      getVotesByRegionHierarchy db rid u sq sb = []) ∧
    (∀ vid uid q opts, db.votes.find? (fun v => v.id == vid) = none →
      updateVote db vid uid q opts = (Except.error "투표를 수정할 권한이 없습니다", db)) ∧
    (∀ vid uid, db.votes.find? (fun v => v.id == vid) = none →
      deleteVote db vid uid = (Except.error "투표를 삭제할 권한이 없습니다", db)) ∧
    (∀ cid uid, db.comments.find? (fun c => c.id == cid) = none →
      deleteComment db cid uid = (Except.error "댓글을 삭제할 권한이 없습니다", db)) ∧
    isForbiddenError "투표를 수정할 권한이 없습니다" = true ∧
    isForbiddenError "투표를 삭제할 권한이 없습니다" = true := by
  refine ⟨?_, ?_, ?_, ?_, by decide, by decide⟩
  · intro rid u sq sb hnone
    rw [getVotesByRegionHierarchy, hnone]
  · intro vid uid q opts hnone
    rw [updateVote, hnone]
  · intro vid uid hnone
    rw [deleteVote, hnone]
  · intro cid uid hnone
    rw [deleteComment, hnone]

/-- C5 amended witness: the amended behavior at concrete absent ids in
`exDb1`. -/
theorem absent_resource_amended_witness :
    getVotesByRegionHierarchy exDb1 99 none none none = [] ∧
    updateVote exDb1 77 "u2" "q" ["a", "b"] =
      (Except.error "투표를 수정할 권한이 없습니다", exDb1) ∧
    deleteVote exDb1 77 "u2" = (Except.error "투표를 삭제할 권한이 없습니다", exDb1) ∧
    deleteComment exDb1 77 "u2" = (Except.error "댓글을 삭제할 권한이 없습니다", exDb1) := by
  have h := absent_resource_amended exDb1
  exact ⟨h.1 99 none none none rfl, h.2.1 77 "u2" "q" ["a", "b"] rfl,
    h.2.2.1 77 "u2" rfl, h.2.2.2.1 77 "u2" rfl⟩

/-- A row produced by the clearing pass of setUserSelectedRegion is never
a selected row of the calling user. -/
theorem cleared_not_selected (userId : String) (l : List UserRegion) (a : UserRegion)
    (ha : a ∈ l.map (fun ur =>
      if ur.userId == userId then { ur with isSelected := false } else ur)) :
    (a.userId == userId && a.isSelected) = false := by
  rcases List.mem_map.mp ha with ⟨ur, -, rfl⟩
  by_cases h : ur.userId = userId
  · simp [h]
  · simp [h]

/-- The clearing pass of setUserSelectedRegion does not change the
selected rows of any other user. -/
theorem filter_other_user (userId w : String) (hw : w ≠ userId) (l : List UserRegion) :
    ((l.map (fun ur =>
        if ur.userId == userId then { ur with isSelected := false } else ur)).filter
      (fun ur => ur.userId == w && ur.isSelected)) =
    l.filter (fun ur => ur.userId == w && ur.isSelected) := by
  induction l with
  | nil => rfl
  | cons x xs ih =>
    rw [List.map_cons, List.filter_cons, List.filter_cons]
    by_cases hx : x.userId = userId
    · have hfx : (if x.userId == userId then ({ x with isSelected := false } : UserRegion)
          else x) = ({ x with isSelected := false } : UserRegion) := by
        simp [hx]
      have hxw : (x.userId == w) = false := by
        rw [hx]
        exact beq_eq_false_iff_ne.mpr (fun hh => hw hh.symm)
      rw [hfx]
      have h1 : (({ x with isSelected := false } : UserRegion).userId == w &&
          ({ x with isSelected := false } : UserRegion).isSelected) = false := by
        simp
      have h2 : (x.userId == w && x.isSelected) = false := by
        rw [hxw]
        rfl
      rw [h1, h2, if_neg Bool.false_ne_true, if_neg Bool.false_ne_true, ih]
    · have hfx : (if x.userId == userId then ({ x with isSelected := false } : UserRegion)
          else x) = x := by
        simp [hx]
      rw [hfx, ih]

/-- If a (userId, regionId) row exists, the conflict check of
setUserSelectedRegion fires on the cleared list. -/
theorem conflict_any (userId : String) (regionId : Nat) (l : List UserRegion)
    (hex : ∃ ur ∈ l, ur.userId = userId ∧ ur.regionId = regionId) :
    ((l.map (fun ur =>
        if ur.userId == userId then { ur with isSelected := false } else ur)).any
      (fun ur => ur.userId == userId && ur.regionId == regionId)) = true := by
  rcases hex with ⟨ur, hmem, hu, hr⟩
  rw [List.any_eq_true]
  exact ⟨_, List.mem_map_of_mem _ hmem, by simp [hu, hr]⟩

/-- C10: setUserSelectedRegion first clears isSelected on all of the
user's rows and then inserts with on-conflict-do-nothing, so after the
call the calling user has at most one selected row, other users' selected
rows are untouched, and when a (userId, regionId) row already existed the
insert is skipped and getUserSelectedRegion subsequently returns nothing. -/
theorem setUserSelectedRegion_behavior (db : DB) (userId : String) (regionId : Nat) :
    ((setUserSelectedRegion db userId regionId).userRegions.filter
      (fun ur => ur.userId == userId && ur.isSelected)).length ≤ 1 ∧
    (∀ w, w ≠ userId →
      ((setUserSelectedRegion db userId regionId).userRegions.filter
        (fun ur => ur.userId == w && ur.isSelected)) =
      db.userRegions.filter (fun ur => ur.userId == w && ur.isSelected)) ∧
    ((∃ ur ∈ db.userRegions, ur.userId = userId ∧ ur.regionId = regionId) →
      getUserSelectedRegion (setUserSelectedRegion db userId regionId) userId = none) := by
  have hclr : ∀ a ∈ db.userRegions.map (fun ur =>
      if ur.userId == userId then { ur with isSelected := false } else ur),
      ¬((a.userId == userId && a.isSelected) = true) := by
    intro a ha hcon
    rw [cleared_not_selected userId db.userRegions a ha] at hcon
    exact Bool.false_ne_true hcon
  have hclrnil : (db.userRegions.map (fun ur =>
      if ur.userId == userId then { ur with isSelected := false } else ur)).filter
        (fun ur => ur.userId == userId && ur.isSelected) = [] :=
    List.filter_eq_nil_iff.mpr hclr
  rw [setUserSelectedRegion]
  split
  case isTrue hc =>
    refine ⟨?_, ?_, ?_⟩
    · rw [hclrnil]; simp
    · intro w hw
      exact filter_other_user userId w hw db.userRegions
    · intro hex
      rw [getUserSelectedRegion]
      rw [hclrnil]
      rfl
  case isFalse hc =>
    refine ⟨?_, ?_, ?_⟩
    · rw [List.filter_append, hclrnil]
      simp
    · intro w hw
      rw [List.filter_append, filter_other_user userId w hw db.userRegions]
      have hone : ∀ (n : Nat),
          (([{ id := n, userId := userId, regionId := regionId, isSelected := true }] :
              List UserRegion).filter
            (fun ur => ur.userId == w && ur.isSelected)) = [] := by
        intro n
        simp [beq_eq_false_iff_ne.mpr (fun hh => hw hh.symm)]
      rw [hone, List.append_nil]
    · intro hex
      exact absurd (conflict_any userId regionId db.userRegions hex) hc

/-- C10 witness: in `exDb10`, the (u1, region 1) row already exists, so
setting region 1 again leaves u1 with no selected region. -/
theorem setUserSelectedRegion_behavior_witness :
    ((setUserSelectedRegion exDb10 "u1" 1).userRegions.filter
      (fun ur => ur.userId == "u1" && ur.isSelected)).length ≤ 1 ∧
    getUserSelectedRegion (setUserSelectedRegion exDb10 "u1" 1) "u1" = none := by
  have h := setUserSelectedRegion_behavior exDb10 "u1" 1
  exact ⟨h.1, h.2.2 ⟨exUR1, by decide, rfl, rfl⟩⟩

/-- A predicate that is incompatible with a pairwise relation of the list
matches at most one element. -/
theorem length_filter_le_one {α : Type} (P : α → Bool) (R : α → α → Prop) (l : List α)
    (hl : l.Pairwise R) (hPR : ∀ a b, P a = true → P b = true → R a b → False) :
    (l.filter P).length ≤ 1 := by
  induction l with
  | nil => simp
  | cons x xs ih =>
    rw [List.pairwise_cons] at hl
    rw [List.filter_cons]
    by_cases hPx : P x = true
    · have hnil : xs.filter P = [] := by
        rw [List.filter_eq_nil_iff]
        intro b hb hPb
        exact hPR x b hPx hPb (hl.1 b hb)
      rw [if_pos hPx, hnil]
      simp
    · rw [Bool.eq_false_iff.mpr hPx, if_neg Bool.false_ne_true]
      exact ih hl.2

/-- Splitting a filter count along a second boolean predicate. -/
theorem length_filter_split {α : Type} (P Q : α → Bool) (l : List α) :
    (l.filter Q).length =
      (l.filter (fun x => Q x && P x)).length + (l.filter (fun x => Q x && !P x)).length := by
  induction l with
  | nil => rfl
  | cons x xs ih =>
    rw [List.filter_cons, List.filter_cons, List.filter_cons]
    cases hq : Q x <;> cases hp : P x <;> simp [hq, hp, ih] <;> omega

/-- When hasUserLiked is false, no row of the likes table matches the
(userId, voteId) pair. -/
theorem not_liked_no_match (db : DB) (userId : String) (voteId : Nat)
    (h : hasUserLiked db userId voteId = false) :
    ∀ a ∈ db.likes, (a.userId == userId && a.voteId == voteId) = false := by
  intro a ha
  by_contra hcon
  rw [Bool.not_eq_false] at hcon
  have hs : (db.likes.find? (fun l => l.userId == userId && l.voteId == voteId)).isSome = true :=
    List.find?_isSome.mpr ⟨a, ha, hcon⟩
  rw [hasUserLiked] at h
  rw [h] at hs
  exact Bool.false_ne_true hs

/-- Branch equation of toggleLike when the pair is not yet liked: insert
and report liked. -/
theorem toggleLike_not_liked_eq (db : DB) (userId : String) (voteId : Nat)
    (h : hasUserLiked db userId voteId = false) :
    toggleLike db userId voteId =
      (true, { db with likes := db.likes ++
        [{ id := nextId (db.likes.map (fun l => l.id)), userId := userId, voteId := voteId }] }) := by
  have hnil : db.likes.filter (fun l => l.userId == userId && l.voteId == voteId) = [] := by
    rw [List.filter_eq_nil_iff]
    intro a ha hPa
    rw [not_liked_no_match db userId voteId h a ha] at hPa
    exact Bool.false_ne_true hPa
  rw [toggleLike]
  simp [hnil]

/-- Branch equation of toggleLike when the pair is liked: delete every
matching row and report unliked. -/
theorem toggleLike_liked_eq (db : DB) (userId : String) (voteId : Nat)
    (h : hasUserLiked db userId voteId = true) :
    toggleLike db userId voteId =
      (false, { db with likes := db.likes.filter (fun l =>
        !(l.userId == userId && l.voteId == voteId)) }) := by
  rw [hasUserLiked] at h
  obtain ⟨a, ha, hPa⟩ := List.find?_isSome.mp h
  have hmem : a ∈ db.likes.filter (fun l => l.userId == userId && l.voteId == voteId) :=
    List.mem_filter.mpr ⟨ha, hPa⟩
  have hpos : 0 < (db.likes.filter (fun l => l.userId == userId && l.voteId == voteId)).length :=
    List.length_pos_of_mem hmem
  rw [toggleLike]
  simp [hpos]

/-- C6: toggleLike reports liked exactly when no Like row existed, and
two successive calls for the same (user, poll) restore both the
liked/unliked state and the likes count (the unique (userId, voteId)
constraint of the likes table is the pairwise hypothesis). -/
theorem toggleLike_involution (db : DB) (userId : String) (voteId : Nat)
    (hnodup : db.likes.Pairwise (fun a b => ¬(a.userId = b.userId ∧ a.voteId = b.voteId))) :
    (toggleLike db userId voteId).1 = !(hasUserLiked db userId voteId) ∧
    hasUserLiked (toggleLike (toggleLike db userId voteId).2 userId voteId).2 userId voteId
      = hasUserLiked db userId voteId ∧
    getLikesCount (toggleLike (toggleLike db userId voteId).2 userId voteId).2 voteId
      = getLikesCount db voteId := by
  cases hl : hasUserLiked db userId voteId with
  | false =>
    have e1 := toggleLike_not_liked_eq db userId voteId hl
    have hA : hasUserLiked (toggleLike db userId voteId).2 userId voteId = true := by
      rw [e1]
      exact List.find?_isSome.mpr
        ⟨_, List.mem_append_right _ (List.mem_singleton_self _), by simp⟩
    have e2 := toggleLike_liked_eq (toggleLike db userId voteId).2 userId voteId hA
    have hlikes : (toggleLike (toggleLike db userId voteId).2 userId voteId).2.likes
        = db.likes := by
      rw [e2, e1]
      show (db.likes ++ _).filter _ = db.likes
      rw [List.filter_append]
      have h1 : db.likes.filter (fun l => !(l.userId == userId && l.voteId == voteId))
          = db.likes := by
        rw [List.filter_eq_self]
        intro a ha
        rw [not_liked_no_match db userId voteId hl a ha]
        rfl
      have h2 : ∀ (n : Nat),
          (([{ id := n, userId := userId, voteId := voteId }] : List Like).filter
            (fun l => !(l.userId == userId && l.voteId == voteId))) = [] := by
        intro n
        simp
      rw [h1, h2, List.append_nil]
    refine ⟨by rw [e1]; rfl, ?_, ?_⟩
    · rw [hasUserLiked] at hl ⊢
      rw [hlikes]
      exact hl
    · rw [getLikesCount, getLikesCount, hlikes]
  | true =>
    have e1 := toggleLike_liked_eq db userId voteId hl
    have hAnot : hasUserLiked (toggleLike db userId voteId).2 userId voteId = false := by
      rw [e1, hasUserLiked]
      rw [Bool.eq_false_iff]
      intro hs
      obtain ⟨b, hb, hPb⟩ := List.find?_isSome.mp hs
      have hnb := (List.mem_filter.mp hb).2
      rw [hPb] at hnb
      exact absurd hnb (by simp)
    have e2 := toggleLike_not_liked_eq (toggleLike db userId voteId).2 userId voteId hAnot
    have hPR : ∀ a b : Like, (a.userId == userId && a.voteId == voteId) = true →
        (b.userId == userId && b.voteId == voteId) = true →
        ¬(a.userId = b.userId ∧ a.voteId = b.voteId) → False := by
      intro a b hpa hpb hr
      rw [Bool.and_eq_true, beq_iff_eq, beq_iff_eq] at hpa hpb
      exact hr ⟨hpa.1.trans hpb.1.symm, hpa.2.trans hpb.2.symm⟩
    rw [hasUserLiked] at hl
    obtain ⟨a, ha, hPa⟩ := List.find?_isSome.mp hl
    have hone : (db.likes.filter (fun l => l.userId == userId && l.voteId == voteId)).length
        = 1 := by
      have hle := length_filter_le_one (fun l => l.userId == userId && l.voteId == voteId)
        (fun a b => ¬(a.userId = b.userId ∧ a.voteId = b.voteId)) db.likes hnodup hPR
      have hmem : a ∈ db.likes.filter (fun l => l.userId == userId && l.voteId == voteId) :=
        List.mem_filter.mpr ⟨ha, hPa⟩
      have hge := List.length_pos_of_mem hmem
      omega
    refine ⟨by rw [e1]; rfl, ?_, ?_⟩
    · rw [e2]
      exact List.find?_isSome.mpr
        ⟨_, List.mem_append_right _ (List.mem_singleton_self _), by simp⟩
    · rw [getLikesCount, getLikesCount, e2, e1]
      have hnew : ∀ (n : Nat),
          (([{ id := n, userId := userId, voteId := voteId }] : List Like).filter
            (fun l => l.voteId == voteId)) = [{ id := n, userId := userId, voteId := voteId }] := by
        intro n
        simp
      show ((db.likes.filter (fun l => !(l.userId == userId && l.voteId == voteId)) ++
          [{ id := nextId ((db.likes.filter (fun l =>
                !(l.userId == userId && l.voteId == voteId))).map (fun l => l.id)),
             userId := userId, voteId := voteId }] : List Like).filter
            (fun l => l.voteId == voteId)).length
        = (db.likes.filter (fun l => l.voteId == voteId)).length
      rw [List.filter_append, hnew, List.length_append, List.length_singleton]
      have hsplit : (db.likes.filter (fun l => l.voteId == voteId)).length =
          (db.likes.filter (fun x => (x.voteId == voteId) &&
            (x.userId == userId && x.voteId == voteId))).length +
          (db.likes.filter (fun x => (x.voteId == voteId) &&
            !(x.userId == userId && x.voteId == voteId))).length :=
        length_filter_split _ _ db.likes
      have hQP : db.likes.filter (fun x =>
            (x.voteId == voteId) && (x.userId == userId && x.voteId == voteId))
          = db.likes.filter (fun x => x.userId == userId && x.voteId == voteId) := by
        apply List.filter_congr
        intro x _
        cases hpx : (x.userId == userId && x.voteId == voteId)
        · rw [Bool.and_false]
        · rw [Bool.and_true]
          exact (Bool.and_eq_true_iff.mp hpx).2
      have hQnP : db.likes.filter (fun x =>
            (x.voteId == voteId) && !(x.userId == userId && x.voteId == voteId))
          = (db.likes.filter (fun l => !(l.userId == userId && l.voteId == voteId))).filter
              (fun l => l.voteId == voteId) := by
        rw [List.filter_filter]
      rw [hQP, hone] at hsplit
      rw [← hQnP]
      omega

/-- C6 witness: in `exDb8`, (u2, poll 1) is liked; toggling twice
restores the liked state and the likes count. -/
theorem toggleLike_involution_witness :
    (toggleLike exDb8 "u2" 1).1 = !(hasUserLiked exDb8 "u2" 1) ∧
    hasUserLiked (toggleLike (toggleLike exDb8 "u2" 1).2 "u2" 1).2 "u2" 1
      = hasUserLiked exDb8 "u2" 1 ∧
    getLikesCount (toggleLike (toggleLike exDb8 "u2" 1).2 "u2" 1).2 1
      = getLikesCount exDb8 1 := by
  have hnodup : exDb8.likes.Pairwise
      (fun a b => ¬(a.userId = b.userId ∧ a.voteId = b.voteId)) := by
    rw [show exDb8.likes = [{ id := 1, userId := "u2", voteId := 1 }] from rfl]
    exact List.pairwise_singleton _ _
  exact toggleLike_involution exDb8 "u2" 1 hnodup

/-- Structural properties of the per-poll aggregation body of
getVotesByRegion: the poll row is preserved, totalVotes is the sum of the
poll's option counters in the database, and every listed option's
percentage is computed by `percentage` from its counter and that total. -/
theorem regionVoteDetails_options (db : DB) (v : Vote) (u : Option String) :
    (regionVoteDetails db v u).options =
      (db.voteOptions.filter (fun o => o.voteId == v.id)).map
        (fun o => ({ option := o, percentage := percentage o.voteCount (regionVoteDetails db v u).totalVotes } : OptionWithPercentage)) :=
  rfl

theorem regionVoteDetails_props (db : DB) (v : Vote) (u : Option String) :
    (regionVoteDetails db v u).vote = v ∧
    (regionVoteDetails db v u).totalVotes =
      ((db.voteOptions.filter (fun o => o.voteId == v.id)).map (fun o => o.voteCount)).sum ∧
    ∀ ow ∈ (regionVoteDetails db v u).options,
      ow.percentage = percentage ow.option.voteCount (regionVoteDetails db v u).totalVotes := by
  refine ⟨rfl, ?_, ?_⟩
  · show (db.voteOptions.filter (fun o => o.voteId == v.id)).foldl
        (fun sum o => sum + o.voteCount) 0 = _
    rw [foldl_add_voteCount, Nat.zero_add]
  · intro ow how
    rw [regionVoteDetails_options] at how
    rcases List.mem_map.mp how with ⟨o, ho, rfl⟩
    rfl

/-- Structural properties of the aggregation body of getVoteById (same
shape as the one of getVotesByRegion). -/
theorem voteByIdDetails_options (db : DB) (v : Vote) (u : Option String) :
    (voteByIdDetails db v u).options =
      (db.voteOptions.filter (fun o => o.voteId == v.id)).map
        (fun o => ({ option := o, percentage := percentage o.voteCount (voteByIdDetails db v u).totalVotes } : OptionWithPercentage)) :=
  rfl

theorem voteByIdDetails_props (db : DB) (v : Vote) (u : Option String) :
    (voteByIdDetails db v u).vote = v ∧
    (voteByIdDetails db v u).totalVotes =
      ((db.voteOptions.filter (fun o => o.voteId == v.id)).map (fun o => o.voteCount)).sum ∧
    ∀ ow ∈ (voteByIdDetails db v u).options,
      ow.percentage = percentage ow.option.voteCount (voteByIdDetails db v u).totalVotes := by
  refine ⟨rfl, ?_, ?_⟩
  · show (db.voteOptions.filter (fun o => o.voteId == v.id)).foldl
        (fun sum o => sum + o.voteCount) 0 = _
    rw [foldl_add_voteCount, Nat.zero_add]
  · intro ow how
    rw [voteByIdDetails_options] at how
    rcases List.mem_map.mp how with ⟨o, ho, rfl⟩
    rfl

/-- Membership survives the sort switch backwards. -/
theorem mem_applySort (sb : Option SortBy) (l : List VoteWithDetails) (d : VoteWithDetails)
    (h : d ∈ applySort sb l) : d ∈ l := by
  cases sb with
  | none => exact h
  | some s => cases s <;> exact (List.mem_insertionSort _).mp h

/-- Membership survives the search filter backwards. -/
theorem mem_applySearch (sq : Option String) (l : List VoteWithDetails) (d : VoteWithDetails)
    (h : d ∈ applySearch sq l) : d ∈ l := by
  cases sq with
  | none => exact h
  | some q =>
    rw [applySearch] at h
    split at h
    · exact (List.mem_filter.mp h).1
    · exact h

/-- Inversion of getVotesByRegion membership: every returned view is the
aggregation of a poll row of the queried region that survives the join. -/
theorem mem_getVotesByRegion (db : DB) (rid : Nat) (u : Option String) (sq : Option String)
    (sb : Option SortBy) (d : VoteWithDetails) (h : d ∈ getVotesByRegion db rid u sq sb) :
    ∃ v, v ∈ db.votes ∧ (v.regionId == rid && joinCreatorRegion db v) = true ∧
      d = regionVoteDetails db v u := by
  rw [getVotesByRegion] at h
  have h1 := mem_applySort sb _ d h
  have h2 := mem_applySearch sq _ d h1
  rcases List.mem_map.mp h2 with ⟨v, hv, rfl⟩
  have hv2 := (List.mem_insertionSort _).mp hv
  have hv3 := List.mem_filter.mp hv2
  exact ⟨v, hv3.1, hv3.2, rfl⟩

/-- Introduction for getVotesByRegion membership (no search, no sort). -/
theorem mem_getVotesByRegion_intro (db : DB) (rid : Nat) (u : Option String) (v : Vote)
    (hv : v ∈ db.votes) (hpred : (v.regionId == rid && joinCreatorRegion db v) = true) :
    regionVoteDetails db v u ∈ getVotesByRegion db rid u none none := by
  rw [getVotesByRegion]
  exact List.mem_map_of_mem _ ((List.mem_insertionSort _).mpr (List.mem_filter.mpr ⟨hv, hpred⟩))

/-- Inversion of getVoteById: a successful fetch is the aggregation of
the poll row found by the join query. -/
theorem getVoteById_some (db : DB) (i : Nat) (u : Option String) (d : VoteWithDetails)
    (h : getVoteById db i u = some d) :
    ∃ v, db.votes.find? (fun w => w.id == i && joinCreatorRegion db w) = some v ∧
      d = voteByIdDetails db v u := by
  rw [getVoteById] at h
  cases hf : db.votes.find? (fun w => w.id == i && joinCreatorRegion db w) with
  | none => rw [hf] at h; simp at h
  | some v =>
    rw [hf] at h
    simp at h
    exact ⟨v, rfl, h.symm⟩

/-- C1: for every poll view returned by getVoteById or getVotesByRegion,
totalVotes is the sum of voteCount over the poll's options, and every
option's percentage is round-half-up of voteCount / totalVotes * 100 when
totalVotes is positive, else 0. -/
theorem aggregation_totalVotes_percentage (db : DB) :
    (∀ i u d, getVoteById db i u = some d →
      d.totalVotes = ((db.voteOptions.filter (fun o => o.voteId == d.vote.id)).map
        (fun o => o.voteCount)).sum ∧
      ∀ ow ∈ d.options, ow.percentage =
        (if 0 < d.totalVotes then
          (ow.option.voteCount * 100 * 2 + d.totalVotes) / (2 * d.totalVotes) else 0)) ∧
    (∀ rid u sq sb d, d ∈ getVotesByRegion db rid u sq sb →
      d.totalVotes = ((db.voteOptions.filter (fun o => o.voteId == d.vote.id)).map
        (fun o => o.voteCount)).sum ∧
      ∀ ow ∈ d.options, ow.percentage =
        (if 0 < d.totalVotes then
          (ow.option.voteCount * 100 * 2 + d.totalVotes) / (2 * d.totalVotes) else 0)) := by
  constructor
  · intro i u d h
    obtain ⟨v, hf, rfl⟩ := getVoteById_some db i u d h
    obtain ⟨hv, ht, hp⟩ := voteByIdDetails_props db v u
    constructor
    · rw [hv]
      exact ht
    · intro ow how
      rw [hp ow how, percentage]
  · intro rid u sq sb d h
    obtain ⟨v, hvm, hpred, rfl⟩ := mem_getVotesByRegion db rid u sq sb d h
    obtain ⟨hv, ht, hp⟩ := regionVoteDetails_props db v u
    constructor
    · rw [hv]
      exact ht
    · intro ow how
      rw [hp ow how, percentage]

/-- C1 witness: the poll of `exDb1` with option counters 3 and 1 reports
totalVotes 4 and percentages 75 and 25. -/
theorem aggregation_totalVotes_percentage_witness :
    getVoteById exDb1 1 none = some exView1 ∧
    exView1.totalVotes = ((exDb1.voteOptions.filter (fun o => o.voteId == exView1.vote.id)).map
      (fun o => o.voteCount)).sum ∧
    exView1.totalVotes = 4 ∧
    exView1.options.map (fun ow => ow.percentage) = [75, 25] := by
  refine ⟨rfl, ((aggregation_totalVotes_percentage exDb1).1 1 none exView1 rfl).1,
    by decide, by decide⟩

/-- Distinct primary keys identify poll rows. -/
theorem vote_eq_of_id (l : List Vote) :
    l.Pairwise (fun a b => a.id ≠ b.id) →
    ∀ a b, a ∈ l → b ∈ l → a.id = b.id → a = b := by
  induction l with
  | nil => intro _ a b ha; cases ha
  | cons x xs ih =>
    intro h a b ha hb hid
    rw [List.pairwise_cons] at h
    rcases List.mem_cons.mp ha with rfl | ha'
    · rcases List.mem_cons.mp hb with rfl | hb'
      · rfl
      · exact absurd hid (h.1 b hb')
    · rcases List.mem_cons.mp hb with rfl | hb'
      · exact absurd hid.symm (h.1 a ha')
      · exact ih h.2 a b ha' hb' hid

/-- The search filter preserves a pairwise ordering. -/
theorem pairwise_applySearch {R : VoteWithDetails → VoteWithDetails → Prop} (sq : Option String)
    (l : List VoteWithDetails) (h : l.Pairwise R) : (applySearch sq l).Pairwise R := by
  cases sq with
  | none => exact h
  | some q =>
    rw [applySearch]
    split
    · exact List.Pairwise.sublist (List.filter_sublist _) h
    · exact h

/-- The empty list satisfies every requested ordering. -/
theorem sortedAsRequested_nil (sb : Option SortBy) : sortedAsRequested sb [] := by
  cases sb with
  | none => exact List.sorted_nil
  | some s => cases s <;> exact List.sorted_nil

/-- The country-level path of getVotesByRegionHierarchy is ordered by
createdAt descending (it ignores the requested sort key). -/
theorem country_sorted (db : DB) (u : Option String)
    (hvid : db.votes.Pairwise (fun a b => a.id ≠ b.id)) :
    List.Sorted vdCreatedDesc
      ((List.insertionSort vCreatedDesc db.votes).filterMap (fun v => getVoteById db v.id u)) := by
  show List.Pairwise vdCreatedDesc _
  rw [List.pairwise_filterMap]
  have hsorted : List.Sorted vCreatedDesc (List.insertionSort vCreatedDesc db.votes) :=
    List.sorted_insertionSort vCreatedDesc db.votes
  refine List.Pairwise.imp_of_mem ?_ hsorted
  intro a b hma hmb hrel x hx y hy
  have hxa : x.vote = a := by
    obtain ⟨w, hfw, rfl⟩ := getVoteById_some db a.id u x hx
    have hwmem := List.mem_of_find?_eq_some hfw
    have hwpred := List.find?_some hfw
    have hwid : w.id = a.id := beq_iff_eq.mp (Bool.and_eq_true_iff.mp hwpred).1
    have hma' : a ∈ db.votes := (List.mem_insertionSort _).mp hma
    rw [(voteByIdDetails_props db w u).1]
    exact vote_eq_of_id db.votes hvid w a hwmem hma' hwid
  have hyb : y.vote = b := by
    obtain ⟨w, hfw, rfl⟩ := getVoteById_some db b.id u y hy
    have hwmem := List.mem_of_find?_eq_some hfw
    have hwpred := List.find?_some hfw
    have hwid : w.id = b.id := beq_iff_eq.mp (Bool.and_eq_true_iff.mp hwpred).1
    have hmb' : b ∈ db.votes := (List.mem_insertionSort _).mp hmb
    rw [(voteByIdDetails_props db w u).1]
    exact vote_eq_of_id db.votes hvid w b hwmem hmb' hwid
  show y.vote.createdAt ≤ x.vote.createdAt
  rw [hxa, hyb]
  exact hrel

/-- C4 counterexample: on `exDb4` (a country-level region with a newer
poll of 0 votes and an older poll of 5), requesting the 'participants'
sort returns totals [0, 5], which is not totalVotes-descending: the
country path ignores the requested sort key. -/
theorem hierarchy_sort_counterexample :
    (getVotesByRegionHierarchy exDb4 1 none none (some SortBy.participants)).map
      (fun d => d.totalVotes) = [0, 5] ∧
    ¬ List.Sorted vdTotalDesc
      (getVotesByRegionHierarchy exDb4 1 none none (some SortBy.participants)) := by
  exact ⟨rfl, by decide⟩

/-- C4 amended: only a region outside the country and province levels
(i.e. a city) returns the list ordered as requested ('participants' by
totalVotes descending, 'newest'/'oldest' by createdAt, default createdAt
descending); for country- and province-level regions the result is
ordered by createdAt descending regardless of the requested sort key. -/
theorem hierarchy_sort_amended (db : DB) (rid : Nat) (u : Option String) (sq : Option String)
    (sb : Option SortBy) (r : Region)
    (hfind : getRegionById db rid = some r)
    (hvid : db.votes.Pairwise (fun a b => a.id ≠ b.id)) :
    (r.level ≠ "country" → r.level ≠ "province" →
      sortedAsRequested sb (getVotesByRegionHierarchy db rid u sq sb)) ∧
    (r.level = "country" ∨ r.level = "province" →
      List.Sorted vdCreatedDesc (getVotesByRegionHierarchy db rid u sq sb)) := by
  constructor
  · intro hnc hnp
    have hc : ¬((r.level == "country") = true) := by simp [hnc]
    have hp : ¬((r.level == "province") = true) := by simp [hnp]
    rw [getVotesByRegionHierarchy]
    split
    next heq => exact sortedAsRequested_nil sb
    next selectedRegion heq =>
      rw [hfind] at heq
      injection heq with heq'
      subst heq'
      rw [if_neg hc, if_neg hp]
      cases sb with
      | none =>
        show List.Sorted vdCreatedDesc (getVotesByRegion db rid u sq none)
        rw [getVotesByRegion]
        apply pairwise_applySearch
        rw [List.pairwise_map]
        exact (List.sorted_insertionSort vCreatedDesc _).imp (fun h => h)
      | some s =>
        cases s
        · exact List.sorted_insertionSort vdTotalDesc _
        · exact List.sorted_insertionSort vdCreatedDesc _
        · exact List.sorted_insertionSort vdCreatedAsc _
  · intro hor
    rw [getVotesByRegionHierarchy]
    split
    next heq => exact List.sorted_nil
    next selectedRegion heq =>
      rw [hfind] at heq
      injection heq with heq'
      subst heq'
      by_cases hc : r.level = "country"
      · rw [if_pos (by simp [hc])]
        exact country_sorted db u hvid
      · have hp : r.level = "province" := hor.resolve_left hc
        rw [if_neg (by simp [hc]), if_pos (by simp [hp])]
        exact List.sorted_insertionSort vdCreatedDesc _

/-- C4 amended witness: the country-level query of `exDb4` with the
'participants' sort key is nevertheless ordered by createdAt descending. -/
theorem hierarchy_sort_amended_witness :
    List.Sorted vdCreatedDesc
      (getVotesByRegionHierarchy exDb4 1 none none (some SortBy.participants)) := by
  have h := hierarchy_sort_amended exDb4 1 none none (some SortBy.participants) exRegKR rfl
    (by decide)
  exact h.2 (Or.inl rfl)

/-- With distinct poll ids, the join query of getVoteById finds exactly
the poll row itself. -/
theorem find_vote_self (db : DB) (v : Vote) (hvid : db.votes.Pairwise (fun a b => a.id ≠ b.id))
    (hv : v ∈ db.votes) (hj : joinCreatorRegion db v = true) :
    db.votes.find? (fun w => w.id == v.id && joinCreatorRegion db w) = some v := by
  cases hf : db.votes.find? (fun w => w.id == v.id && joinCreatorRegion db w) with
  | none =>
    have hex : (db.votes.find? (fun w => w.id == v.id && joinCreatorRegion db w)).isSome = true :=
      List.find?_isSome.mpr ⟨v, hv, by simp [hj]⟩
    rw [hf] at hex
    exact absurd hex (by simp)
  | some w =>
    have hwpred := List.find?_some hf
    have hwid : w.id = v.id := beq_iff_eq.mp (Bool.and_eq_true_iff.mp hwpred).1
    have hwmem := List.mem_of_find?_eq_some hf
    rw [vote_eq_of_id db.votes hvid w v hwmem hv hwid]

/-- C2: under a consistent database (distinct poll ids, every poll's
creator and region present), getVotesByRegionHierarchy returns exactly
the polls visible under the three-level rule: every returned view is a
poll of the database; a country-level region yields every poll; a
province-level region yields a poll iff it belongs to the province or to
a region whose parentId is the province; a city-level region yields a
poll iff it belongs to that city. -/
theorem hierarchy_visibility (db : DB) (rid : Nat) (u : Option String) (r : Region)
    (hfind : getRegionById db rid = some r)
    (hvid : db.votes.Pairwise (fun a b => a.id ≠ b.id))
    (hwf : ∀ v ∈ db.votes, joinCreatorRegion db v = true) :
    (∀ d ∈ getVotesByRegionHierarchy db rid u none none, d.vote ∈ db.votes) ∧
    ∀ v ∈ db.votes,
      ((r.level = "country" →
        ∃ d ∈ getVotesByRegionHierarchy db rid u none none, d.vote = v) ∧
       (r.level = "province" →
        ((∃ d ∈ getVotesByRegionHierarchy db rid u none none, d.vote = v) ↔
          (v.regionId = rid ∨ ∃ c ∈ db.regions, c.parentId = some rid ∧ v.regionId = c.id))) ∧
       (r.level = "city" →
        ((∃ d ∈ getVotesByRegionHierarchy db rid u none none, d.vote = v) ↔
          v.regionId = rid))) := by
  have hbranch : getVotesByRegionHierarchy db rid u none none =
      (if (r.level == "country") = true then
        (List.insertionSort vCreatedDesc db.votes).filterMap (fun v => getVoteById db v.id u)
      else if (r.level == "province") = true then
        List.insertionSort vdCreatedDesc
          ((rid :: (db.regions.filter (fun rr => rr.parentId == some rid)).map
              (fun rr => rr.id)).flatMap
            (fun targetId => getVotesByRegion db targetId u none none))
      else getVotesByRegion db rid u none none) := by
    rw [getVotesByRegionHierarchy]
    split
    next heq =>
      rw [hfind] at heq
      exact absurd heq (by simp)
    next selectedRegion heq =>
      rw [hfind] at heq
      injection heq with heq'
      subst heq'
      rfl
  constructor
  · intro d hd
    rw [hbranch] at hd
    by_cases hc : (r.level == "country") = true
    · rw [if_pos hc] at hd
      rcases List.mem_filterMap.mp hd with ⟨w, hw, hfw⟩
      obtain ⟨v, hfv, rfl⟩ := getVoteById_some db w.id u d hfw
      rw [(voteByIdDetails_props db v u).1]
      exact List.mem_of_find?_eq_some hfv
    · rw [if_neg hc] at hd
      by_cases hp : (r.level == "province") = true
      · rw [if_pos hp] at hd
        have hd2 := (List.mem_insertionSort _).mp hd
        rcases List.mem_flatMap.mp hd2 with ⟨tid, htid, hdt⟩
        obtain ⟨v, hvm, hpred, rfl⟩ := mem_getVotesByRegion db tid u none none d hdt
        rw [(regionVoteDetails_props db v u).1]
        exact hvm
      · rw [if_neg hp] at hd
        obtain ⟨v, hvm, hpred, rfl⟩ := mem_getVotesByRegion db rid u none none d hd
        rw [(regionVoteDetails_props db v u).1]
        exact hvm
  · intro v hv
    refine ⟨?_, ?_, ?_⟩
    · intro hc
      rw [hbranch, if_pos (by simp [hc])]
      refine ⟨voteByIdDetails db v u, ?_, (voteByIdDetails_props db v u).1⟩
      apply List.mem_filterMap.mpr
      refine ⟨v, (List.mem_insertionSort _).mpr hv, ?_⟩
      rw [getVoteById, find_vote_self db v hvid hv (hwf v hv)]
      rfl
    · intro hp
      have hcfalse : ¬((r.level == "country") = true) := by simp [hp]
      rw [hbranch, if_neg hcfalse, if_pos (by simp [hp])]
      constructor
      · rintro ⟨d, hd, rfl⟩
        have hd2 := (List.mem_insertionSort _).mp hd
        rcases List.mem_flatMap.mp hd2 with ⟨tid, htid, hdt⟩
        obtain ⟨w, hwm, hpred, heq⟩ := mem_getVotesByRegion db tid u none none d hdt
        have hdw : d.vote = w := by rw [heq, (regionVoteDetails_props db w u).1]
        have hwr : w.regionId = tid := beq_iff_eq.mp (Bool.and_eq_true_iff.mp hpred).1
        rcases List.mem_cons.mp htid with rfl | htid'
        · left
          rw [hdw]
          exact hwr
        · right
          rcases List.mem_map.mp htid' with ⟨c, hcf, rfl⟩
          have hcm := List.mem_filter.mp hcf
          refine ⟨c, hcm.1, beq_iff_eq.mp hcm.2, ?_⟩
          rw [hdw]
          exact hwr
      · intro hcond
        rcases hcond with hreg | ⟨c, hcmem, hcpar, hreg⟩
        · refine ⟨regionVoteDetails db v u, ?_, (regionVoteDetails_props db v u).1⟩
          apply (List.mem_insertionSort _).mpr
          apply List.mem_flatMap.mpr
          exact ⟨rid, List.mem_cons_self _ _,
            mem_getVotesByRegion_intro db rid u v hv (by simp [hreg, hwf v hv])⟩
        · refine ⟨regionVoteDetails db v u, ?_, (regionVoteDetails_props db v u).1⟩
          apply (List.mem_insertionSort _).mpr
          apply List.mem_flatMap.mpr
          refine ⟨c.id, ?_, mem_getVotesByRegion_intro db c.id u v hv (by simp [hreg, hwf v hv])⟩
          exact List.mem_cons.mpr (Or.inr (List.mem_map_of_mem _
            (List.mem_filter.mpr ⟨hcmem, by simp [hcpar]⟩)))
    · intro hcity
      have hcfalse : ¬((r.level == "country") = true) := by simp [hcity]
      have hpfalse : ¬((r.level == "province") = true) := by simp [hcity]
      rw [hbranch, if_neg hcfalse, if_neg hpfalse]
      constructor
      · rintro ⟨d, hd, rfl⟩
        obtain ⟨w, hwm, hpred, heq⟩ := mem_getVotesByRegion db rid u none none d hd
        have hdw : d.vote = w := by rw [heq, (regionVoteDetails_props db w u).1]
        rw [hdw]
        exact beq_iff_eq.mp (Bool.and_eq_true_iff.mp hpred).1
      · intro hreg
        refine ⟨regionVoteDetails db v u,
          mem_getVotesByRegion_intro db rid u v hv (by simp [hreg, hwf v hv]),
          (regionVoteDetails_props db v u).1⟩

/-- C2 witness: in `exDb2`, querying province 2 returns exactly the
province's poll and its child city's poll (ids 1 and 2), and never the
poll of the unrelated province's city (exV3). -/
theorem hierarchy_visibility_witness :
    ((getVotesByRegionHierarchy exDb2 2 none none none).map (fun d => d.vote.id) = [1, 2]) ∧
    ¬ (∃ d ∈ getVotesByRegionHierarchy exDb2 2 none none none, d.vote = exV3) := by
  have h := hierarchy_visibility exDb2 2 none exRegP1 rfl (by decide) (by decide)
  refine ⟨by decide, ?_⟩
  intro hex
  have h3 := ((h.2 exV3 (by decide)).2.1 rfl).mp hex
  rcases h3 with h3 | ⟨c, hc, hpar, hreg⟩
  · exact absurd h3 (by decide)
  · fin_cases hc <;>
      first
        | exact absurd hpar (by decide)
        | exact absurd hreg (by decide)

end Kok
